import Mathlib

/-!
Shallow embedding of `src/validation/roundtrip.py` from argovis/bsose-sync.

The script runs a `while True` loop: it samples one profile document and its
location-metadata document, resolves the profile coordinates to grid indices
in the BSOSE reference axes, reconstructs per-variable timeseries by
concatenating the 2013 and 2014 netcdf segments, compares with
`numpy.allclose(..., equal_nan=True)`, compares nine static metadata fields
against all four open files with `!=`, and prints a log block when any
mismatch line was appended.

Numeric values are modelled as `Option ℚ`: `none` stands for the IEEE NaN
sentinel, `some q` for a finite float read exactly.  Python / numpy
exceptions (ValueError from `list.index`, IndexError from list subscripts,
ValueError from numpy broadcasting) are modelled with `Except`.
-/

namespace Roundtrip

/-- A float value: `none` models the NaN sentinel, `some q` a finite value. -/
abbrev Val := Option ℚ

/-- Exceptions the script body can raise (none of them are caught anywhere). -/
inductive Err where
  /-- The ValueError raised by the longitude / latitude / level `index`
  lookups when the coordinate is absent from the axis. -/
  | CoordinateNotFound
  /-- The IndexError raised by the `data[i]` subscript when `i` is out of
  range. -/
  | IndexError
  /-- The ValueError raised by `numpy.allclose` when the two operands cannot
  be broadcast together. -/
  | BroadcastError
  deriving DecidableEq, Repr

/-- One reference netcdf file (e.g. `Theta_bsoseI156_2013_5day.nc`): a time
dimension, the single dynamic 4-D variable indexed (time, level, lat, lon),
and the static grid fields indexed as in the source. -/
structure SegFile where
  ntime : Nat
  var4d : Nat → Nat → Nat → Nat → Val
  rA : Nat → Nat → Val
  Depth : Nat → Nat → Val
  maskInC : Nat → Nat → Val
  rSurfC : Nat → Nat → Val
  rLowC : Nat → Nat → Val
  drF : Nat → Val
  hFacC : Nat → Nat → Nat → Val
  maskC : Nat → Nat → Nat → Val
  rhoRef : Nat → Val

/-- One profile document `p` from `db.bsose`, restricted to the fields the
script reads.  `lon`/`lat` are positions 0/1 of the geolocation
coordinates; `data_info` here is the name row `data_info[0]` of the
document. -/
structure Profile where
  _id : String
  lon : ℚ
  lat : ℚ
  level : ℚ
  data_info : List String
  data : List (List Val)
  cell_z_size : Val
  cell_vertical_fraction : Val
  sea_binary_mask_at_t_locaiton : Val
  reference_density_profile : Val

/-- One location-metadata document `m` from `db.timeseriesMeta`. -/
structure Meta where
  cell_area : Val
  ocean_depth : Val
  interior_2d_mask : Val
  depth_r0_to_ref_surface : Val
  depth_r0_to_bottom : Val

/-- Module-level state of the script: the three coordinate axes (read from
`theta13.coords`) and the four open reference files. -/
structure Env where
  longitudes : List ℚ
  latitudes : List ℚ
  levels : List ℚ
  theta13 : SegFile
  theta14 : SegFile
  salt13 : SegFile
  salt14 : SegFile

/-- Python float `%`: `x - m * ⌊x / m⌋`; for `m = 360` the result lies in
`[0, 360)`.  Models the `lon % 360` normalisation of the profile
longitude. -/
def pymod (x m : ℚ) : ℚ := x - m * ⌊x / m⌋

/-- Python `list.index(x)`: index of the first exact occurrence, ValueError
(here `CoordinateNotFound`) when the value is absent. -/
def listIndex (xs : List ℚ) (x : ℚ) : Except Err Nat :=
  match xs.findIdx? (· == x) with
  | some i => Except.ok i
  | none => Except.error Err.CoordinateNotFound

/-- The coordinate-index resolution performed by the script: wrap the
longitude with `% 360`, negate the level with `-1*level`, then exact
`list.index` lookups on the three axes. -/
def resolve (env : Env) (lon lat level : ℚ) : Except Err (Nat × Nat × Nat) := do
  let lonidx ← listIndex env.longitudes (pymod lon 360)
  let latidx ← listIndex env.latitudes lat
  let levelidx ← listIndex env.levels (-1 * level)
  pure (lonidx, latidx, levelidx)

/-- Variable-vector extraction: the `data_info[0].index(v)` lookup wrapped
in try/except ValueError (an absent name resolves to the empty vector),
then the `data[idx]` subscript (which can raise IndexError). -/
def varVector (p : Profile) (v : String) : Except Err (List Val) :=
  match p.data_info.findIdx? (· == v) with
  | some i =>
    match p.data[i]? with
    | some vec => Except.ok vec
    | none => Except.error Err.IndexError
  | none => Except.ok []

/-- Point extraction `list(f[var][:, levelidx, latidx, lonidx].values)`:
the dynamic variable at the resolved cell, one element per time step. -/
def seriesAt (f : SegFile) (levelidx latidx lonidx : Nat) : List Val :=
  (List.range f.ntime).map (fun t => f.var4d t levelidx latidx lonidx)

/-- Default `numpy.allclose` relative tolerance, `rtol = 1e-05`. -/
def rtol : ℚ := 1 / 100000

/-- Default `numpy.allclose` absolute tolerance, `atol = 1e-08`. -/
def atol : ℚ := 1 / 100000000

/-- Element-wise `numpy.isclose` with `equal_nan=True`: NaN matches NaN,
NaN never matches a number, and finite values match when
`|a - b| ≤ atol + rtol * |b|` (the second argument is the reference). -/
def closeVal : Val → Val → Bool
  | some a, some b => |a - b| ≤ atol + rtol * |b|
  | none, none => true
  | _, _ => false

/-- Model of `numpy.allclose(a, b, equal_nan=True)` on 1-D inputs, with
numpy broadcasting: equal lengths compare positionally, a length-one operand is
broadcast against the other, and any other length mismatch raises a
broadcast `ValueError`. -/
def allclose (a b : List Val) : Except Err Bool :=
  if a.length = b.length then
    Except.ok ((a.zip b).all (fun q => closeVal q.1 q.2))
  else
    match a, b with
    | [x], b => Except.ok (b.all (fun y => closeVal x y))
    | a, [y] => Except.ok (a.all (fun x => closeVal x y))
    | _, _ => Except.error Err.BroadcastError

/-- The Profile ID log line appended after every mismatch category line. -/
def profileIdLine (p : Profile) : String := "Profile ID: " ++ p._id

/-- The header line (Checking profile id followed by the id) that opens
every log message. -/
def headerLine (p : Profile) : String := "Checking profile id " ++ p._id

/-- Python `!=` on two float scalars: true whenever either side is NaN, and
otherwise exact numeric inequality.  This is the comparison used for every
static metadata field. -/
def scalarNe : Val → Val → Bool
  | some a, some b => a != b
  | _, _ => true

/-- The two log lines appended for one failed check. -/
def findingLines (p : Profile) (category : String) : List String :=
  [category ++ " mismatch", profileIdLine p]

/-- The body of `for f in [theta13, theta14, salt13, salt14]`: the nine
static-field checks of one file against the metadata document and the
profile document, in source order. -/
def staticCheck (f : SegFile) (p : Profile) (m : Meta)
    (levelidx latidx lonidx : Nat) : List String :=
  (if scalarNe (f.rA latidx lonidx) m.cell_area then
    findingLines p "Cell area" else [])
  ++ (if scalarNe (f.Depth latidx lonidx) m.ocean_depth then
    findingLines p "ocean_depth" else [])
  ++ (if scalarNe (f.maskInC latidx lonidx) m.interior_2d_mask then
    findingLines p "interior_2d_mask" else [])
  ++ (if scalarNe (f.rSurfC latidx lonidx) m.depth_r0_to_ref_surface then
    findingLines p "depth_r0_to_ref_surface" else [])
  ++ (if scalarNe (f.rLowC latidx lonidx) m.depth_r0_to_bottom then
    findingLines p "depth_r0_to_bottom" else [])
  ++ (if scalarNe (f.drF levelidx) p.cell_z_size then
    findingLines p "cell_z_size" else [])
  ++ (if scalarNe (f.hFacC levelidx latidx lonidx) p.cell_vertical_fraction then
    findingLines p "cell_vertical_fraction" else [])
  ++ (if scalarNe (f.maskC levelidx latidx lonidx) p.sea_binary_mask_at_t_locaiton then
    findingLines p "sea_binary_mask_at_t_locaiton" else [])
  ++ (if scalarNe (f.rhoRef levelidx) p.reference_density_profile then
    findingLines p "reference_density_profile" else [])

/-- The static-field loop over the four open files, in source order. -/
def staticFindings (env : Env) (p : Profile) (m : Meta)
    (levelidx latidx lonidx : Nat) : List String :=
  ([env.theta13, env.theta14, env.salt13, env.salt14].map
    (fun f => staticCheck f p m levelidx latidx lonidx)).flatten

/-- The THETA timeseries reconstruction: 2013 segment then 2014 segment. -/
def thetaTimeseries (env : Env) (levelidx latidx lonidx : Nat) : List Val :=
  seriesAt env.theta13 levelidx latidx lonidx
    ++ seriesAt env.theta14 levelidx latidx lonidx

/-- The SALT timeseries reconstruction: 2013 segment then 2014 segment. -/
def saltTimeseries (env : Env) (levelidx latidx lonidx : Nat) : List Val :=
  seriesAt env.salt13 levelidx latidx lonidx
    ++ seriesAt env.salt14 levelidx latidx lonidx

/-- One iteration of the script body up to (but excluding) the final print:
the mismatch lines appended to `logmessage` after the header, in source
order, or the first uncaught exception. -/
def validatePass (env : Env) (p : Profile) (m : Meta) :
    Except Err (List String) := do
  let theta ← varVector p "THETA"
  let salt ← varVector p "SALT"
  let idxs ← resolve env p.lon p.lat p.level
  let lonidx := idxs.1
  let latidx := idxs.2.1
  let levelidx := idxs.2.2
  let thetaClose ← allclose theta (thetaTimeseries env levelidx latidx lonidx)
  let saltClose ← allclose salt (saltTimeseries env levelidx latidx lonidx)
  let seriesF :=
    (if thetaClose then [] else findingLines p "Theta")
      ++ (if saltClose then [] else findingLines p "Salt")
  pure (seriesF ++ staticFindings env p m levelidx latidx lonidx)

/-- The printed output of one iteration: the whole `logmessage` when its
length grew past the header (`len(logmessage) > loglen`), silence
otherwise. -/
def passOutput (env : Env) (p : Profile) (m : Meta) :
    Except Err (Option (List String)) := do
  let findings ← validatePass env p m
  pure (if findings.isEmpty then none else some (headerLine p :: findings))

/-- The `while True` selection loop over a stream of selected documents.
No exception is caught inside the loop, so the first one terminates it,
discarding all later selections. -/
def runner (env : Env) : List (Profile × Meta) →
    Except Err (List (Option (List String)))
  | [] => Except.ok []
  | (p, m) :: rest => do
    let out ← passOutput env p m
    let outs ← runner env rest
    pure (out :: outs)

/-! ### Evaluation and inversion lemmas for the embedded script -/

theorem listIndex_ok {xs : List ℚ} {x : ℚ} {i : Nat}
    (h : xs.findIdx? (· == x) = some i) : listIndex xs x = Except.ok i := by
  simp [listIndex, h]

theorem listIndex_err {xs : List ℚ} {x : ℚ}
    (h : xs.findIdx? (· == x) = none) :
    listIndex xs x = Except.error Err.CoordinateNotFound := by
  simp [listIndex, h]

theorem resolve_ok {env : Env} {lon lat level : ℚ} {li la le : Nat}
    (h1 : listIndex env.longitudes (pymod lon 360) = Except.ok li)
    (h2 : listIndex env.latitudes lat = Except.ok la)
    (h3 : listIndex env.levels (-1 * level) = Except.ok le) :
    resolve env lon lat level = Except.ok (li, la, le) := by
  simp only [resolve, h1, h2, h3, bind, Except.bind, pure, Except.pure]

theorem resolve_err_lon {env : Env} {lon lat level : ℚ} {e : Err}
    (h1 : listIndex env.longitudes (pymod lon 360) = Except.error e) :
    resolve env lon lat level = Except.error e := by
  simp only [resolve, h1, bind, Except.bind]

theorem validatePass_ok {env : Env} {p : Profile} {m : Meta}
    {theta salt : List Val} {li la le : Nat} {bt bs : Bool}
    (ht : varVector p "THETA" = Except.ok theta)
    (hs : varVector p "SALT" = Except.ok salt)
    (hr : resolve env p.lon p.lat p.level = Except.ok (li, la, le))
    (hat : allclose theta (thetaTimeseries env le la li) = Except.ok bt)
    (has : allclose salt (saltTimeseries env le la li) = Except.ok bs) :
    validatePass env p m = Except.ok
      (((if bt then [] else findingLines p "Theta")
        ++ (if bs then [] else findingLines p "Salt"))
        ++ staticFindings env p m le la li) := by
  simp only [validatePass, ht, hs, hr, hat, has, bind, Except.bind, pure,
    Except.pure]

theorem validatePass_err_resolve {env : Env} {p : Profile} {m : Meta}
    {theta salt : List Val} {e : Err}
    (ht : varVector p "THETA" = Except.ok theta)
    (hs : varVector p "SALT" = Except.ok salt)
    (hr : resolve env p.lon p.lat p.level = Except.error e) :
    validatePass env p m = Except.error e := by
  simp only [validatePass, ht, hs, hr, bind, Except.bind]

theorem validatePass_err_theta {env : Env} {p : Profile} {m : Meta}
    {theta salt : List Val} {li la le : Nat} {e : Err}
    (ht : varVector p "THETA" = Except.ok theta)
    (hs : varVector p "SALT" = Except.ok salt)
    (hr : resolve env p.lon p.lat p.level = Except.ok (li, la, le))
    (hat : allclose theta (thetaTimeseries env le la li) = Except.error e) :
    validatePass env p m = Except.error e := by
  simp only [validatePass, ht, hs, hr, hat, bind, Except.bind]

theorem validatePass_ok_inv {env : Env} {p : Profile} {m : Meta}
    {fs : List String} (h : validatePass env p m = Except.ok fs) :
    ∃ theta salt li la le bt bs,
      varVector p "THETA" = Except.ok theta ∧
      varVector p "SALT" = Except.ok salt ∧
      resolve env p.lon p.lat p.level = Except.ok (li, la, le) ∧
      allclose theta (thetaTimeseries env le la li) = Except.ok bt ∧
      allclose salt (saltTimeseries env le la li) = Except.ok bs ∧
      fs = ((if bt then [] else findingLines p "Theta")
        ++ (if bs then [] else findingLines p "Salt"))
        ++ staticFindings env p m le la li := by
  unfold validatePass at h
  simp only [bind, Except.bind, pure, Except.pure] at h
  cases ht : varVector p "THETA" with
  | error e => simp only [ht] at h; cases h
  | ok theta =>
  simp only [ht] at h
  cases hs : varVector p "SALT" with
  | error e => simp only [hs] at h; cases h
  | ok salt =>
  simp only [hs] at h
  cases hr : resolve env p.lon p.lat p.level with
  | error e => simp only [hr] at h; cases h
  | ok idxs =>
  simp only [hr] at h
  obtain ⟨li, la, le⟩ := idxs
  cases hat : allclose theta (thetaTimeseries env le la li) with
  | error e => simp only [hat] at h; cases h
  | ok bt =>
  simp only [hat] at h
  cases has : allclose salt (saltTimeseries env le la li) with
  | error e => simp only [has] at h; cases h
  | ok bs =>
  simp only [has] at h
  cases h
  exact ⟨theta, salt, li, la, le, bt, bs, rfl, rfl, rfl, hat, has, rfl⟩

theorem passOutput_eq {env : Env} {p : Profile} {m : Meta} {fs : List String}
    (h : validatePass env p m = Except.ok fs) :
    passOutput env p m =
      Except.ok (if fs.isEmpty then none else some (headerLine p :: fs)) := by
  simp [passOutput, h, bind, Except.bind, pure, Except.pure]

theorem passOutput_err {env : Env} {p : Profile} {m : Meta} {e : Err}
    (h : validatePass env p m = Except.error e) :
    passOutput env p m = Except.error e := by
  simp [passOutput, h, bind, Except.bind]

theorem runner_cons {env : Env} {p : Profile} {m : Meta}
    {out : Option (List String)} {rest : List (Profile × Meta)}
    {outs : List (Option (List String))}
    (h : passOutput env p m = Except.ok out)
    (h2 : runner env rest = Except.ok outs) :
    runner env ((p, m) :: rest) = Except.ok (out :: outs) := by
  simp [runner, h, h2, bind, Except.bind, pure, Except.pure]

theorem runner_cons_err {env : Env} {p : Profile} {m : Meta} {e : Err}
    {rest : List (Profile × Meta)}
    (h : passOutput env p m = Except.error e) :
    runner env ((p, m) :: rest) = Except.error e := by
  simp [runner, h, bind, Except.bind]

/-! ### Properties of the coordinate lookup and the comparison policy -/

theorem pymod_bounds (x : ℚ) : 0 ≤ pymod x 360 ∧ pymod x 360 < 360 := by
  unfold pymod
  have h3 : (360:ℚ) * (x / 360) = x := by field_simp
  constructor
  · have h := Int.floor_le (x / 360)
    have h2 : (360:ℚ) * ⌊x / 360⌋ ≤ 360 * (x / 360) :=
      mul_le_mul_of_nonneg_left h (by norm_num)
    linarith
  · have h := Int.lt_floor_add_one (x / 360)
    have h2 : (360:ℚ) * (x / 360) < 360 * (⌊x / 360⌋ + 1) :=
      mul_lt_mul_of_pos_left h (by norm_num)
    push_cast at h2
    linarith

theorem listIndex_mem {xs : List ℚ} {x : ℚ} (h : x ∈ xs) :
    ∃ i, listIndex xs x = Except.ok i ∧ xs[i]? = some x := by
  have hs : (xs.findIdx? (· == x)).isSome := by
    rw [List.findIdx?_isSome]
    exact List.any_eq_true.mpr ⟨x, h, by simp⟩
  obtain ⟨i, hi⟩ := Option.isSome_iff_exists.mp hs
  obtain ⟨hlt, hp, -⟩ := List.findIdx?_eq_some_iff_getElem.mp hi
  refine ⟨i, listIndex_ok hi, ?_⟩
  rw [List.getElem?_eq_getElem hlt]
  simpa using hp

theorem closeVal_self (x : Val) : closeVal x x = true := by
  cases x with
  | none => rfl
  | some q =>
    simp only [closeVal, sub_self, abs_zero, decide_eq_true_eq, atol, rtol]
    positivity

theorem allclose_self (v : List Val) : allclose v v = Except.ok true := by
  unfold allclose
  rw [if_pos rfl]
  congr 1
  induction v with
  | nil => rfl
  | cons x v ih => simpa [closeVal_self] using ih

theorem seriesAt_getElem {f : SegFile} {k levelidx latidx lonidx : Nat}
    (h : k < f.ntime) :
    (seriesAt f levelidx latidx lonidx)[k]? =
      some (f.var4d k levelidx latidx lonidx) := by
  simp [seriesAt, List.getElem?_map, List.getElem?_range, h]

theorem seriesAt_length (f : SegFile) (levelidx latidx lonidx : Nat) :
    (seriesAt f levelidx latidx lonidx).length = f.ntime := by
  simp [seriesAt]

/-! ### A small concrete instantiation used by witnesses and counterexamples -/

/-- A reference file with two time steps whose dynamic variable at every cell
is the time index, and constant static fields. -/
def wSeg : SegFile where
  ntime := 2
  var4d := fun t _ _ _ => some (t : ℚ)
  rA := fun _ _ => some 1
  Depth := fun _ _ => some 100
  maskInC := fun _ _ => some 1
  rSurfC := fun _ _ => some 0
  rLowC := fun _ _ => some (-100)
  drF := fun _ => some 5
  hFacC := fun _ _ _ => some 1
  maskC := fun _ _ _ => some 1
  rhoRef := fun _ => some 1000

/-- Concrete axes and four identical reference files. -/
def wEnv : Env where
  longitudes := [350, 200]
  latitudes := [-60]
  levels := [-25]
  theta13 := wSeg
  theta14 := wSeg
  salt13 := wSeg
  salt14 := wSeg

/-- A profile consistent with `wEnv` and `wMeta`: its longitude -10 wraps to
350, its level 25 negates to -25, and its THETA/SALT vectors equal the
concatenated reference timeseries [0, 1] ++ [0, 1]. -/
def wProfile : Profile where
  _id := "4902911"
  lon := -10
  lat := -60
  level := 25
  data_info := ["PRES", "THETA", "SALT"]
  data := [[some 9], [some 0, some 1, some 0, some 1],
    [some 0, some 1, some 0, some 1]]
  cell_z_size := some 5
  cell_vertical_fraction := some 1
  sea_binary_mask_at_t_locaiton := some 1
  reference_density_profile := some 1000

/-- Metadata consistent with `wSeg` at every cell. -/
def wMeta : Meta where
  cell_area := some 1
  ocean_depth := some 100
  interior_2d_mask := some 1
  depth_r0_to_ref_surface := some 0
  depth_r0_to_bottom := some (-100)

/-! ### C4 -/

/-- C4: `resolve` first wraps the longitude into `[0, 360)`, negates the
depth level, and performs an exact-value membership lookup on each axis, so
that whenever the normalised values are present verbatim in the axes the
returned indices re-derive those axis values exactly. -/
theorem resolve_exact_roundtrip (env : Env) (lon lat level : ℚ)
    (h1 : pymod lon 360 ∈ env.longitudes)
    (h2 : lat ∈ env.latitudes)
    (h3 : -1 * level ∈ env.levels) :
    (0 ≤ pymod lon 360 ∧ pymod lon 360 < 360) ∧
    ∃ li la le, resolve env lon lat level = Except.ok (li, la, le) ∧
      env.longitudes[li]? = some (pymod lon 360) ∧
      env.latitudes[la]? = some lat ∧
      env.levels[le]? = some (-1 * level) := by
  obtain ⟨li, hli, hgi⟩ := listIndex_mem h1
  obtain ⟨la, hla, hga⟩ := listIndex_mem h2
  obtain ⟨le, hle, hge⟩ := listIndex_mem h3
  exact ⟨pymod_bounds lon, li, la, le, resolve_ok hli hla hle, hgi, hga, hge⟩

/-- Witness for C4: longitude -10 wraps to 350 and level 25 negates to -25
in the concrete axes of `wEnv`. -/
theorem resolve_exact_roundtrip_witness :
    (pymod (-10) 360 ∈ wEnv.longitudes ∧ (-60 : ℚ) ∈ wEnv.latitudes ∧
      -1 * (25 : ℚ) ∈ wEnv.levels) ∧
    ((0 ≤ pymod (-10) 360 ∧ pymod (-10) 360 < 360) ∧
    ∃ li la le, resolve wEnv (-10) (-60) 25 = Except.ok (li, la, le) ∧
      wEnv.longitudes[li]? = some (pymod (-10) 360) ∧
      wEnv.latitudes[la]? = some (-60) ∧
      wEnv.levels[le]? = some (-1 * 25)) := by
  have h1 : pymod (-10) 360 ∈ wEnv.longitudes := by norm_num [pymod, wEnv]
  have h2 : (-60 : ℚ) ∈ wEnv.latitudes := by norm_num [wEnv]
  have h3 : -1 * (25 : ℚ) ∈ wEnv.levels := by norm_num [wEnv]
  exact ⟨⟨h1, h2, h3⟩, resolve_exact_roundtrip wEnv (-10) (-60) 25 h1 h2 h3⟩

/-! ### C5 -/

/-- C5: each reconstructed reference timeseries is the concatenation, in
chronological file order (2013 segment first), of the per-segment point
extractions: its length is the sum of the segment lengths, positions below
the 2013 length read the 2013 segment at that time index, and positions at
offset `ntime13 + k` read the 2014 segment at time `k`. -/
theorem timeseries_concat (env : Env) (levelidx latidx lonidx : Nat) :
    thetaTimeseries env levelidx latidx lonidx =
      seriesAt env.theta13 levelidx latidx lonidx ++
        seriesAt env.theta14 levelidx latidx lonidx ∧
    saltTimeseries env levelidx latidx lonidx =
      seriesAt env.salt13 levelidx latidx lonidx ++
        seriesAt env.salt14 levelidx latidx lonidx ∧
    (thetaTimeseries env levelidx latidx lonidx).length =
      env.theta13.ntime + env.theta14.ntime ∧
    (saltTimeseries env levelidx latidx lonidx).length =
      env.salt13.ntime + env.salt14.ntime ∧
    (∀ k, k < env.theta13.ntime →
      (thetaTimeseries env levelidx latidx lonidx)[k]? =
        some (env.theta13.var4d k levelidx latidx lonidx)) ∧
    (∀ k, k < env.theta14.ntime →
      (thetaTimeseries env levelidx latidx lonidx)[env.theta13.ntime + k]? =
        some (env.theta14.var4d k levelidx latidx lonidx)) ∧
    (∀ k, k < env.salt13.ntime →
      (saltTimeseries env levelidx latidx lonidx)[k]? =
        some (env.salt13.var4d k levelidx latidx lonidx)) ∧
    (∀ k, k < env.salt14.ntime →
      (saltTimeseries env levelidx latidx lonidx)[env.salt13.ntime + k]? =
        some (env.salt14.var4d k levelidx latidx lonidx)) := by
  refine ⟨rfl, rfl, by simp [thetaTimeseries, seriesAt],
    by simp [saltTimeseries, seriesAt], ?_, ?_, ?_, ?_⟩
  · intro k hk
    rw [thetaTimeseries,
      List.getElem?_append_left (by rw [seriesAt_length]; exact hk)]
    exact seriesAt_getElem hk
  · intro k hk
    rw [thetaTimeseries,
      List.getElem?_append_right (by rw [seriesAt_length]; omega),
      seriesAt_length, Nat.add_sub_cancel_left]
    exact seriesAt_getElem hk
  · intro k hk
    rw [saltTimeseries,
      List.getElem?_append_left (by rw [seriesAt_length]; exact hk)]
    exact seriesAt_getElem hk
  · intro k hk
    rw [saltTimeseries,
      List.getElem?_append_right (by rw [seriesAt_length]; omega),
      seriesAt_length, Nat.add_sub_cancel_left]
    exact seriesAt_getElem hk

/-- Witness for C5 at the concrete environment: the second position of the
THETA timeseries reads time step 1 of the 2013 file, and position 2 reads
time step 0 of the 2014 file. -/
theorem timeseries_concat_witness :
    (thetaTimeseries wEnv 0 0 0)[1]? = some (wEnv.theta13.var4d 1 0 0 0) ∧
    (thetaTimeseries wEnv 0 0 0)[2]? = some (wEnv.theta14.var4d 0 0 0 0) := by
  have h := timeseries_concat wEnv 0 0 0
  exact ⟨h.2.2.2.2.1 1 (by norm_num [wEnv, wSeg]),
    h.2.2.2.2.2.1 0 (by norm_num [wEnv, wSeg])⟩

/-! ### C6 -/

/-- C6: for equal-length sequences, `allclose` returns true when the two
vectors are exactly equal (NaN positions included), and false when some
position holds a pair that is not close under the absolute+relative
tolerance (NaN against a number included). -/
theorem allclose_exact_and_perturbed (v a b : List Val)
    (hlen : a.length = b.length)
    (hex : ∃ (i : Nat) (x y : Val),
      a[i]? = some x ∧ b[i]? = some y ∧ closeVal x y = false) :
    allclose v v = Except.ok true ∧ allclose a b = Except.ok false := by
  refine ⟨allclose_self v, ?_⟩
  unfold allclose
  rw [if_pos hlen]
  congr 1
  obtain ⟨i, x, y, hx, hy, hxy⟩ := hex
  refine List.all_eq_false.mpr ⟨(x, y), ?_, by simp [hxy]⟩
  exact List.getElem?_mem (List.getElem?_zip_eq_some.mpr ⟨hx, hy⟩)

/-- Witness for C6: a vector with a NaN equals itself, and perturbing a
single element from 0 to 1 (beyond `atol + rtol`) yields false. -/
theorem allclose_exact_and_perturbed_witness :
    ([some 0] : List Val).length = ([some 1] : List Val).length ∧
    (∃ (i : Nat) (x y : Val), ([some 0] : List Val)[i]? = some x ∧
      ([some 1] : List Val)[i]? = some y ∧ closeVal x y = false) ∧
    allclose [some 1, none] [some 1, none] = Except.ok true ∧
    allclose [some 0] [some 1] = Except.ok false := by
  have hex : ∃ (i : Nat) (x y : Val), ([some 0] : List Val)[i]? = some x ∧
      ([some 1] : List Val)[i]? = some y ∧ closeVal x y = false :=
    ⟨0, some 0, some 1, rfl, rfl, by norm_num [closeVal, atol, rtol]⟩
  exact ⟨rfl, hex, allclose_exact_and_perturbed [some 1, none] _ _ rfl hex⟩

/-! ### C9 -/

/-- C9: the pass is deterministic — profiles with equal coordinates resolve
to identical grid indices, and identical profile and metadata documents
yield identical findings. -/
theorem pass_deterministic (env : Env) (p1 p2 : Profile) (m1 m2 : Meta)
    (hlon : p1.lon = p2.lon) (hlat : p1.lat = p2.lat)
    (hlev : p1.level = p2.level) :
    resolve env p1.lon p1.lat p1.level = resolve env p2.lon p2.lat p2.level ∧
    (p1 = p2 → m1 = m2 → validatePass env p1 m1 = validatePass env p2 m2) := by
  rw [hlon, hlat, hlev]
  exact ⟨rfl, fun h h2 => by rw [h, h2]⟩

/-- Witness for C9 at the concrete documents. -/
theorem pass_deterministic_witness :
    wProfile.lon = wProfile.lon ∧
    (resolve wEnv wProfile.lon wProfile.lat wProfile.level =
      resolve wEnv wProfile.lon wProfile.lat wProfile.level ∧
    (wProfile = wProfile → wMeta = wMeta →
      validatePass wEnv wProfile wMeta = validatePass wEnv wProfile wMeta)) :=
  ⟨rfl, pass_deterministic wEnv wProfile wProfile wMeta wMeta rfl rfl rfl⟩

/-! ### C10 -/

/-- C10: when `data_info` contains the same variable name at more than one
position, extraction uses the data vector paired with the first occurrence;
the later occurrences are never consulted. -/
theorem varVector_first_occurrence (p : Profile) (v : String)
    (pre post : List String) (vec : List Val)
    (hinfo : p.data_info = pre ++ v :: post)
    (hpre : v ∉ pre)
    (hvec : p.data[pre.length]? = some vec) :
    varVector p v = Except.ok vec := by
  have h1 : pre.findIdx? (· == v) = none :=
    List.findIdx?_eq_none_iff.mpr fun x hx => by
      simp only [beq_eq_false_iff_ne]
      exact fun hxv => hpre (hxv ▸ hx)
  have h2 : p.data_info.findIdx? (· == v) = some pre.length := by
    rw [hinfo, List.findIdx?_append, h1]
    simp
  unfold varVector
  rw [h2]
  simp only [hvec]

/-- A profile carrying the name THETA twice, with different vectors at the
two positions. -/
def wProfileDup : Profile :=
  { wProfile with data_info := ["THETA", "THETA"],
                  data := [[some 1], [some 2]] }

/-- Witness for C10: with `data_info = [THETA, THETA]`, extraction returns
the vector at position 0, not the one at position 1. -/
theorem varVector_first_occurrence_witness :
    wProfileDup.data_info = [] ++ "THETA" :: ["THETA"] ∧
    "THETA" ∉ ([] : List String) ∧
    wProfileDup.data[([] : List String).length]? = some [some 1] ∧
    varVector wProfileDup "THETA" = Except.ok [some 1] :=
  ⟨rfl, by simp, rfl,
    varVector_first_occurrence wProfileDup "THETA" [] ["THETA"] [some 1]
      rfl (by simp) rfl⟩

/-! ### Log-line disambiguation -/

theorem profileIdLine_head (p : Profile) :
    (profileIdLine p).data.head? = some 'P' := by
  rw [profileIdLine, String.data_append]
  rfl

theorem ne_profileIdLine {c : String} (p : Profile)
    (h : c.data.head? ≠ some 'P') : c ≠ profileIdLine p := fun hEq =>
  h (hEq ▸ profileIdLine_head p)

/-- How often the ocean_depth category line occurs in the static checks of
one file: once when the `!=` test fires, never otherwise. -/
theorem staticCheck_count_ocean_depth (f : SegFile) (p : Profile) (m : Meta)
    (le la lo : Nat) :
    (staticCheck f p m le la lo).count "ocean_depth mismatch" =
      if scalarNe (f.Depth la lo) m.ocean_depth then 1 else 0 := by
  have hp : "ocean_depth mismatch" ≠ profileIdLine p :=
    ne_profileIdLine p (by decide)
  unfold staticCheck findingLines
  simp only [List.count_append]
  rw [show ("Cell area" ++ " mismatch" : String) = "Cell area mismatch" from
      rfl,
    show ("ocean_depth" ++ " mismatch" : String) = "ocean_depth mismatch" from
      rfl,
    show ("interior_2d_mask" ++ " mismatch" : String) =
      "interior_2d_mask mismatch" from rfl,
    show ("depth_r0_to_ref_surface" ++ " mismatch" : String) =
      "depth_r0_to_ref_surface mismatch" from rfl,
    show ("depth_r0_to_bottom" ++ " mismatch" : String) =
      "depth_r0_to_bottom mismatch" from rfl,
    show ("cell_z_size" ++ " mismatch" : String) = "cell_z_size mismatch" from
      rfl,
    show ("cell_vertical_fraction" ++ " mismatch" : String) =
      "cell_vertical_fraction mismatch" from rfl,
    show ("sea_binary_mask_at_t_locaiton" ++ " mismatch" : String) =
      "sea_binary_mask_at_t_locaiton mismatch" from rfl,
    show ("reference_density_profile" ++ " mismatch" : String) =
      "reference_density_profile mismatch" from rfl]
  simp [List.count_cons, apply_ite (List.count "ocean_depth mismatch"), hp]

/-! ### C7 -/

/-- C7: every static field is validated against every configured segment
independently: when the profile metadata's ocean depth agrees with the grid
`Depth` at its resolved cell in three files but disagrees in `theta14`, the
pass produces exactly one ocean_depth finding overall, none from `theta13`,
and the one finding arises from the `theta14` checks. -/
theorem staticField_per_segment (env : Env) (p : Profile) (m : Meta)
    (le la lo : Nat)
    (hA : scalarNe (env.theta13.Depth la lo) m.ocean_depth = false)
    (hB : scalarNe (env.theta14.Depth la lo) m.ocean_depth = true)
    (hC : scalarNe (env.salt13.Depth la lo) m.ocean_depth = false)
    (hD : scalarNe (env.salt14.Depth la lo) m.ocean_depth = false) :
    (staticFindings env p m le la lo).count "ocean_depth mismatch" = 1 ∧
    "ocean_depth mismatch" ∉ staticCheck env.theta13 p m le la lo ∧
    "ocean_depth mismatch" ∈ staticCheck env.theta14 p m le la lo := by
  have h13 := staticCheck_count_ocean_depth env.theta13 p m le la lo
  have h14 := staticCheck_count_ocean_depth env.theta14 p m le la lo
  have hs13 := staticCheck_count_ocean_depth env.salt13 p m le la lo
  have hs14 := staticCheck_count_ocean_depth env.salt14 p m le la lo
  rw [hA, if_neg (by simp)] at h13
  rw [hB, if_pos rfl] at h14
  rw [hC, if_neg (by simp)] at hs13
  rw [hD, if_neg (by simp)] at hs14
  refine ⟨?_, ?_, ?_⟩
  · unfold staticFindings
    simp [List.count_append, h13, h14, hs13, hs14]
  · exact List.count_eq_zero.mp h13
  · exact List.count_pos_iff.mp (by rw [h14]; norm_num)

/-- A 2014 THETA file whose `Depth` grid disagrees with `wMeta`. -/
def xSeg7 : SegFile := { wSeg with Depth := fun _ _ => some 99 }

/-- Environment `wEnv` with the deviating 2014 THETA file. -/
def xEnv7 : Env := { wEnv with theta14 := xSeg7 }

/-- Witness for C7: ocean depth 100 matches `theta13`, `salt13`, `salt14`
(Depth 100) but not `theta14` (Depth 99): exactly one finding, from
`theta14`. -/
theorem staticField_per_segment_witness :
    scalarNe (xEnv7.theta13.Depth 0 0) wMeta.ocean_depth = false ∧
    scalarNe (xEnv7.theta14.Depth 0 0) wMeta.ocean_depth = true ∧
    ((staticFindings xEnv7 wProfile wMeta 0 0 0).count "ocean_depth mismatch"
        = 1 ∧
      "ocean_depth mismatch" ∉ staticCheck xEnv7.theta13 wProfile wMeta 0 0 0 ∧
      "ocean_depth mismatch" ∈ staticCheck xEnv7.theta14 wProfile wMeta 0 0 0)
    := ⟨rfl, rfl,
      staticField_per_segment xEnv7 wProfile wMeta 0 0 0 rfl rfl rfl rfl⟩

/-! ### Concrete evaluations of the passing world -/

theorem wTheta_vec :
    varVector wProfile "THETA" = Except.ok [some 0, some 1, some 0, some 1] :=
  rfl

theorem wSalt_vec :
    varVector wProfile "SALT" = Except.ok [some 0, some 1, some 0, some 1] :=
  rfl

theorem wResolve : resolve wEnv (-10) (-60) 25 = Except.ok (0, 0, 0) := by
  have h1 : listIndex wEnv.longitudes (pymod (-10) 360) = Except.ok 0 := by
    rw [show pymod (-10) 360 = 350 from by norm_num [pymod]]
    rfl
  refine resolve_ok h1 rfl ?_
  rw [show (-1 : ℚ) * 25 = -25 from by norm_num]
  rfl

theorem wThetaSeries :
    thetaTimeseries wEnv 0 0 0 = [some 0, some 1, some 0, some 1] := rfl

theorem wSaltSeries :
    saltTimeseries wEnv 0 0 0 = [some 0, some 1, some 0, some 1] := rfl

theorem wAllTheta :
    allclose [some 0, some 1, some 0, some 1] (thetaTimeseries wEnv 0 0 0) =
      Except.ok true := by
  rw [wThetaSeries]
  exact allclose_self _

theorem wAllSalt :
    allclose [some 0, some 1, some 0, some 1] (saltTimeseries wEnv 0 0 0) =
      Except.ok true := by
  rw [wSaltSeries]
  exact allclose_self _

/-! ### C1 -/

/-- C1 (amended): when the selected profile's wrapped longitude has no exact
match in the reference axis, the pass raises `CoordinateNotFound`; because
the loop catches nothing, the exception escalates and aborts the runner, so
later selections are never processed.  (The claim's statement — that the
failure is captured locally and the loop proceeds — is refuted by the
counterexample.) -/
theorem coordinateNotFound_aborts (env : Env) (p : Profile) (m : Meta)
    (theta salt : List Val) (rest : List (Profile × Meta))
    (ht : varVector p "THETA" = Except.ok theta)
    (hs : varVector p "SALT" = Except.ok salt)
    (h : env.longitudes.findIdx? (· == pymod p.lon 360) = none) :
    validatePass env p m = Except.error Err.CoordinateNotFound ∧
    runner env ((p, m) :: rest) = Except.error Err.CoordinateNotFound := by
  have hv : validatePass env p m = Except.error Err.CoordinateNotFound :=
    validatePass_err_resolve ht hs (resolve_err_lon (listIndex_err h))
  exact ⟨hv, runner_cons_err (passOutput_err hv)⟩

/-- A profile whose longitude 10 is absent from the axes of `wEnv`. -/
def xProfile1 : Profile := { wProfile with lon := 10 }

/-- Counterexample to C1 as stated: on a batch whose first selection has an
unmatched coordinate, the runner does not proceed to the second (valid)
selection — it terminates with the uncaught `CoordinateNotFound`, producing
no report list at all. -/
theorem c1_counterexample :
    validatePass wEnv xProfile1 wMeta = Except.error Err.CoordinateNotFound ∧
    runner wEnv [(xProfile1, wMeta), (wProfile, wMeta)] =
      Except.error Err.CoordinateNotFound := by
  have h : wEnv.longitudes.findIdx? (· == pymod xProfile1.lon 360) = none := by
    rw [show pymod xProfile1.lon 360 = 10 from by norm_num [pymod, xProfile1]]
    rfl
  have hv : validatePass wEnv xProfile1 wMeta =
      Except.error Err.CoordinateNotFound :=
    validatePass_err_resolve
      (show varVector xProfile1 "THETA" =
        Except.ok [some 0, some 1, some 0, some 1] from rfl)
      (show varVector xProfile1 "SALT" =
        Except.ok [some 0, some 1, some 0, some 1] from rfl)
      (resolve_err_lon (listIndex_err h))
  exact ⟨hv, runner_cons_err (passOutput_err hv)⟩

/-- Witness for the amended C1 at the concrete unmatched profile. -/
theorem coordinateNotFound_aborts_witness :
    wEnv.longitudes.findIdx? (· == pymod xProfile1.lon 360) = none ∧
    (validatePass wEnv xProfile1 wMeta = Except.error Err.CoordinateNotFound ∧
     runner wEnv [(xProfile1, wMeta)] =
       Except.error Err.CoordinateNotFound) := by
  have h : wEnv.longitudes.findIdx? (· == pymod xProfile1.lon 360) = none := by
    rw [show pymod xProfile1.lon 360 = 10 from by norm_num [pymod, xProfile1]]
    rfl
  exact ⟨h, coordinateNotFound_aborts wEnv xProfile1 wMeta _ _ [] rfl rfl h⟩

/-! ### C2 -/

theorem mem_findingLines_ite {x : String} {p : Profile} {c : Bool}
    {cat : String} :
    x ∈ (if c then findingLines p cat else []) ↔
      (c = true ∧ (x = cat ++ " mismatch" ∨ x = profileIdLine p)) := by
  cases c <;> simp [findingLines]

theorem staticCheck_mem_ocean_depth (f : SegFile) (p : Profile) (m : Meta)
    (le la lo : Nat) :
    ("ocean_depth mismatch" ∈ staticCheck f p m le la lo) ↔
      scalarNe (f.Depth la lo) m.ocean_depth = true := by
  have hp : "ocean_depth mismatch" ≠ profileIdLine p :=
    ne_profileIdLine p (by decide)
  unfold staticCheck
  simp only [List.mem_append, mem_findingLines_ite]
  rw [show ("Cell area" ++ " mismatch" : String) = "Cell area mismatch" from
      rfl,
    show ("ocean_depth" ++ " mismatch" : String) = "ocean_depth mismatch" from
      rfl,
    show ("interior_2d_mask" ++ " mismatch" : String) =
      "interior_2d_mask mismatch" from rfl,
    show ("depth_r0_to_ref_surface" ++ " mismatch" : String) =
      "depth_r0_to_ref_surface mismatch" from rfl,
    show ("depth_r0_to_bottom" ++ " mismatch" : String) =
      "depth_r0_to_bottom mismatch" from rfl,
    show ("cell_z_size" ++ " mismatch" : String) = "cell_z_size mismatch" from
      rfl,
    show ("cell_vertical_fraction" ++ " mismatch" : String) =
      "cell_vertical_fraction mismatch" from rfl,
    show ("sea_binary_mask_at_t_locaiton" ++ " mismatch" : String) =
      "sea_binary_mask_at_t_locaiton mismatch" from rfl,
    show ("reference_density_profile" ++ " mismatch" : String) =
      "reference_density_profile mismatch" from rfl]
  simp [hp]

theorem staticCheck_mem_cell_area (f : SegFile) (p : Profile) (m : Meta)
    (le la lo : Nat) :
    ("Cell area mismatch" ∈ staticCheck f p m le la lo) ↔
      scalarNe (f.rA la lo) m.cell_area = true := by
  have hp : "Cell area mismatch" ≠ profileIdLine p :=
    ne_profileIdLine p (by decide)
  unfold staticCheck
  simp only [List.mem_append, mem_findingLines_ite]
  rw [show ("Cell area" ++ " mismatch" : String) = "Cell area mismatch" from
      rfl,
    show ("ocean_depth" ++ " mismatch" : String) = "ocean_depth mismatch" from
      rfl,
    show ("interior_2d_mask" ++ " mismatch" : String) =
      "interior_2d_mask mismatch" from rfl,
    show ("depth_r0_to_ref_surface" ++ " mismatch" : String) =
      "depth_r0_to_ref_surface mismatch" from rfl,
    show ("depth_r0_to_bottom" ++ " mismatch" : String) =
      "depth_r0_to_bottom mismatch" from rfl,
    show ("cell_z_size" ++ " mismatch" : String) = "cell_z_size mismatch" from
      rfl,
    show ("cell_vertical_fraction" ++ " mismatch" : String) =
      "cell_vertical_fraction mismatch" from rfl,
    show ("sea_binary_mask_at_t_locaiton" ++ " mismatch" : String) =
      "sea_binary_mask_at_t_locaiton mismatch" from rfl,
    show ("reference_density_profile" ++ " mismatch" : String) =
      "reference_density_profile mismatch" from rfl]
  simp [hp]

theorem staticCheck_mem_cell_z_size (f : SegFile) (p : Profile) (m : Meta)
    (le la lo : Nat) :
    ("cell_z_size mismatch" ∈ staticCheck f p m le la lo) ↔
      scalarNe (f.drF le) p.cell_z_size = true := by
  have hp : "cell_z_size mismatch" ≠ profileIdLine p :=
    ne_profileIdLine p (by decide)
  unfold staticCheck
  simp only [List.mem_append, mem_findingLines_ite]
  rw [show ("Cell area" ++ " mismatch" : String) = "Cell area mismatch" from
      rfl,
    show ("ocean_depth" ++ " mismatch" : String) = "ocean_depth mismatch" from
      rfl,
    show ("interior_2d_mask" ++ " mismatch" : String) =
      "interior_2d_mask mismatch" from rfl,
    show ("depth_r0_to_ref_surface" ++ " mismatch" : String) =
      "depth_r0_to_ref_surface mismatch" from rfl,
    show ("depth_r0_to_bottom" ++ " mismatch" : String) =
      "depth_r0_to_bottom mismatch" from rfl,
    show ("cell_z_size" ++ " mismatch" : String) = "cell_z_size mismatch" from
      rfl,
    show ("cell_vertical_fraction" ++ " mismatch" : String) =
      "cell_vertical_fraction mismatch" from rfl,
    show ("sea_binary_mask_at_t_locaiton" ++ " mismatch" : String) =
      "sea_binary_mask_at_t_locaiton mismatch" from rfl,
    show ("reference_density_profile" ++ " mismatch" : String) =
      "reference_density_profile mismatch" from rfl]
  simp [hp]

theorem staticCheck_mem_rho (f : SegFile) (p : Profile) (m : Meta)
    (le la lo : Nat) :
    ("reference_density_profile mismatch" ∈ staticCheck f p m le la lo) ↔
      scalarNe (f.rhoRef le) p.reference_density_profile = true := by
  have hp : "reference_density_profile mismatch" ≠ profileIdLine p :=
    ne_profileIdLine p (by decide)
  unfold staticCheck
  simp only [List.mem_append, mem_findingLines_ite]
  rw [show ("Cell area" ++ " mismatch" : String) = "Cell area mismatch" from
      rfl,
    show ("ocean_depth" ++ " mismatch" : String) = "ocean_depth mismatch" from
      rfl,
    show ("interior_2d_mask" ++ " mismatch" : String) =
      "interior_2d_mask mismatch" from rfl,
    show ("depth_r0_to_ref_surface" ++ " mismatch" : String) =
      "depth_r0_to_ref_surface mismatch" from rfl,
    show ("depth_r0_to_bottom" ++ " mismatch" : String) =
      "depth_r0_to_bottom mismatch" from rfl,
    show ("cell_z_size" ++ " mismatch" : String) = "cell_z_size mismatch" from
      rfl,
    show ("cell_vertical_fraction" ++ " mismatch" : String) =
      "cell_vertical_fraction mismatch" from rfl,
    show ("sea_binary_mask_at_t_locaiton" ++ " mismatch" : String) =
      "sea_binary_mask_at_t_locaiton mismatch" from rfl,
    show ("reference_density_profile" ++ " mismatch" : String) =
      "reference_density_profile mismatch" from rfl]
  simp [hp]

/-- C2 (amended): every static metadata comparison — including the
physically-derived float fields cell area (`rA`), ocean depth (`Depth`),
cell thickness (`drF`) and reference density (`rhoRef`) — uses exact IEEE
`!=` equality, with no tolerance: a finding for such a field is produced
precisely when the two scalars are not exactly equal. -/
theorem compareScalar_exact (f : SegFile) (p : Profile) (m : Meta)
    (le la lo : Nat) :
    (("Cell area mismatch" ∈ staticCheck f p m le la lo) ↔
      scalarNe (f.rA la lo) m.cell_area = true) ∧
    (("ocean_depth mismatch" ∈ staticCheck f p m le la lo) ↔
      scalarNe (f.Depth la lo) m.ocean_depth = true) ∧
    (("cell_z_size mismatch" ∈ staticCheck f p m le la lo) ↔
      scalarNe (f.drF le) p.cell_z_size = true) ∧
    (("reference_density_profile mismatch" ∈ staticCheck f p m le la lo) ↔
      scalarNe (f.rhoRef le) p.reference_density_profile = true) :=
  ⟨staticCheck_mem_cell_area f p m le la lo,
   staticCheck_mem_ocean_depth f p m le la lo,
   staticCheck_mem_cell_z_size f p m le la lo,
   staticCheck_mem_rho f p m le la lo⟩

/-- Metadata whose ocean depth differs from the grid value 100 by 1e-9,
well inside the `numpy.allclose` default tolerance. -/
def xMeta2 : Meta := { wMeta with ocean_depth := some (100 + 1 / 1000000000) }

theorem scalarNe_eps : scalarNe (some 100) (some (100 + 1 / 1000000000)) =
    true := by
  simp only [scalarNe, bne_iff_ne, ne_eq, decide_eq_true_eq]
  norm_num

theorem staticCheck_eps : staticCheck wSeg wProfile xMeta2 0 0 0 =
    ["ocean_depth mismatch", "Profile ID: 4902911"] := by
  norm_num [staticCheck, findingLines, profileIdLine, wSeg, wProfile, xMeta2,
    wMeta, scalarNe, bne_iff_ne]
  exact ⟨rfl, rfl⟩

/-- Counterexample to C2: an ocean-depth pair that differs only by 1e-9 —
within the floating tolerance `atol + rtol * |ref|` — still produces
findings (one per reference file), because the code compares static fields
with exact `!=`, not with a tolerance. -/
theorem c2_counterexample :
    closeVal (some 100) (some (100 + 1 / 1000000000)) = true ∧
    validatePass wEnv wProfile xMeta2 = Except.ok
      ["ocean_depth mismatch", "Profile ID: 4902911",
       "ocean_depth mismatch", "Profile ID: 4902911",
       "ocean_depth mismatch", "Profile ID: 4902911",
       "ocean_depth mismatch", "Profile ID: 4902911"] := by
  constructor
  · norm_num [closeVal, atol, rtol, abs_of_nonneg]
  · have hv := @validatePass_ok wEnv wProfile xMeta2 _ _ _ _ _ _ _
      wTheta_vec wSalt_vec wResolve wAllTheta wAllSalt
    rw [hv]
    norm_num [staticFindings, wEnv, staticCheck_eps]

/-! ### C3 -/

/-- C3 (amended): `compareSeries([], [])` is a vacuous pass, but a length
mismatch is not a failure finding: unless one operand has length one (which
numpy broadcasts), `numpy.allclose` on sequences of different lengths raises
a broadcast `ValueError`, which aborts the whole pass. -/
theorem allclose_length_mismatch (a b : List Val)
    (h : a.length ≠ b.length) (ha : a.length ≠ 1) (hb : b.length ≠ 1) :
    allclose a b = Except.error Err.BroadcastError ∧
    allclose ([] : List Val) [] = Except.ok true := by
  refine ⟨?_, rfl⟩
  unfold allclose
  rw [if_neg h]
  rcases a with _ | ⟨x1, _ | ⟨x2, ta⟩⟩ <;>
    rcases b with _ | ⟨y1, _ | ⟨y2, tb⟩⟩ <;>
    first
      | rfl
      | exact absurd rfl h
      | exact absurd rfl ha
      | exact absurd rfl hb

/-- A profile that carries neither THETA nor SALT, so both extractions
resolve to the empty vector. -/
def xProfile3 : Profile :=
  { wProfile with data_info := ["PRES"], data := [[some 9]] }

/-- Counterexample to C3: with THETA absent the extraction is `[]`, the
reference timeseries has length 4, and the comparison raises the broadcast
`ValueError` — the pass aborts with an exception instead of producing a
length-mismatch failure finding. -/
theorem c3_counterexample :
    varVector xProfile3 "THETA" = Except.ok [] ∧
    (thetaTimeseries wEnv 0 0 0).length = 4 ∧
    validatePass wEnv xProfile3 wMeta = Except.error Err.BroadcastError := by
  refine ⟨rfl, rfl, ?_⟩
  have hat : allclose [] (thetaTimeseries wEnv 0 0 0) =
      Except.error Err.BroadcastError := by
    rw [wThetaSeries]
    rfl
  exact validatePass_err_theta rfl rfl wResolve hat

/-- Witness for the amended C3 at lengths 0 and 4. -/
theorem allclose_length_mismatch_witness :
    (([] : List Val).length ≠ ([some 0, some 1, some 0, some 1] :
      List Val).length ∧
     ([] : List Val).length ≠ 1 ∧
     ([some 0, some 1, some 0, some 1] : List Val).length ≠ 1) ∧
    (allclose [] [some 0, some 1, some 0, some 1] =
      Except.error Err.BroadcastError ∧
     allclose ([] : List Val) [] = Except.ok true) :=
  ⟨⟨by decide, by decide, by decide⟩,
    allclose_length_mismatch [] [some 0, some 1, some 0, some 1]
      (by decide) (by decide) (by decide)⟩

/-! ### C8 -/

theorem decomp_single (p : Profile) (c : Bool) (cat : String) :
    (if c then findingLines p cat else []) =
      ((if c then [cat] else []).map (findingLines p)).flatten := by
  cases c <;> simp

theorem decomp_append {p : Profile} {c : Bool} {cat : String}
    {rest cs : List String}
    (h : rest = (cs.map (findingLines p)).flatten) :
    (if c then findingLines p cat else []) ++ rest =
      (((if c then [cat] else []) ++ cs).map (findingLines p)).flatten := by
  cases c <;> simp [h]

theorem decomp_single_ex (p : Profile) (c : Bool) (cat : String) :
    ∃ cs : List String, (if c then findingLines p cat else []) =
      (cs.map (findingLines p)).flatten :=
  ⟨if c then [cat] else [], decomp_single p c cat⟩

theorem decomp_append_ex {p : Profile} (c : Bool) (cat : String)
    {rest : List String}
    (h : ∃ cs : List String, rest = (cs.map (findingLines p)).flatten) :
    ∃ cs : List String, (if c then findingLines p cat else []) ++ rest =
      (cs.map (findingLines p)).flatten := by
  obtain ⟨cs, hcs⟩ := h
  exact ⟨(if c then [cat] else []) ++ cs, decomp_append hcs⟩

/-- The static checks of one file decompose into two-line blocks, one block
per failed check. -/
theorem staticCheck_decomp (f : SegFile) (p : Profile) (m : Meta)
    (le la lo : Nat) :
    ∃ cs : List String,
      staticCheck f p m le la lo = (cs.map (findingLines p)).flatten := by
  unfold staticCheck
  simp only [List.append_assoc]
  exact decomp_append_ex _ _ (decomp_append_ex _ _ (decomp_append_ex _ _
    (decomp_append_ex _ _ (decomp_append_ex _ _ (decomp_append_ex _ _
      (decomp_append_ex _ _ (decomp_append_ex _ _
        (decomp_single_ex p _ _))))))))

theorem staticFindings_decomp (env : Env) (p : Profile) (m : Meta)
    (le la lo : Nat) :
    ∃ cs : List String,
      staticFindings env p m le la lo = (cs.map (findingLines p)).flatten := by
  obtain ⟨c1, h1⟩ := staticCheck_decomp env.theta13 p m le la lo
  obtain ⟨c2, h2⟩ := staticCheck_decomp env.theta14 p m le la lo
  obtain ⟨c3, h3⟩ := staticCheck_decomp env.salt13 p m le la lo
  obtain ⟨c4, h4⟩ := staticCheck_decomp env.salt14 p m le la lo
  refine ⟨c1 ++ c2 ++ c3 ++ c4, ?_⟩
  simp [staticFindings, h1, h2, h3, h4]

/-- C8 (amended): a pass that terminates normally prints nothing when there
are no findings, and otherwise prints one block opened by the profile-id
header; the body of the block is a concatenation of two-line groups — a
mismatch-category line followed by a profile-id line — one group per failed
check, so a category that fails against several files recurs several
times.  (The claimed one-line-per-mismatch-category shape is refuted by
the counterexample.) -/
theorem report_blocks (env : Env) (p : Profile) (m : Meta) (fs : List String)
    (h : validatePass env p m = Except.ok fs) :
    passOutput env p m =
      Except.ok (if fs.isEmpty then none else some (headerLine p :: fs)) ∧
    ∃ cats : List String, fs = (cats.map (findingLines p)).flatten := by
  refine ⟨passOutput_eq h, ?_⟩
  obtain ⟨theta, salt, li, la, le, bt, bs, -, -, -, -, -, rfl⟩ :=
    validatePass_ok_inv h
  obtain ⟨cs, hcs⟩ := staticFindings_decomp env p m le la li
  refine ⟨((if bt then [] else ["Theta"]) ++ (if bs then [] else ["Salt"]))
    ++ cs, ?_⟩
  rw [hcs]
  cases bt <;> cases bs <;> simp

/-- The fully consistent pass produces no findings at all. -/
theorem wPass : validatePass wEnv wProfile wMeta = Except.ok [] := by
  have hv := @validatePass_ok wEnv wProfile wMeta _ _ _ _ _ _ _
    wTheta_vec wSalt_vec wResolve wAllTheta wAllSalt
  rw [hv]
  norm_num [staticFindings, wEnv,
    show staticCheck wSeg wProfile wMeta 0 0 0 = [] from rfl]

/-- Witness for the amended C8: the consistent pass prints nothing
(silence = pass), and its empty finding list decomposes trivially. -/
theorem report_blocks_witness :
    validatePass wEnv wProfile wMeta = Except.ok [] ∧
    (passOutput wEnv wProfile wMeta = Except.ok
      (if ([] : List String).isEmpty then none
        else some (headerLine wProfile :: ([] : List String))) ∧
    ∃ cats : List String,
      ([] : List String) = (cats.map (findingLines wProfile)).flatten) :=
  ⟨wPass, report_blocks wEnv wProfile wMeta [] wPass⟩

/-- Metadata whose ocean depth 99 differs from the grid value 100 in all
four reference files. -/
def xMeta8 : Meta := { wMeta with ocean_depth := some 99 }

/-- Counterexample to C8 as stated: a single mismatching category
(ocean_depth) produces a printed block whose body has eight lines — the
category line appears four times (once per reference file), each followed
by a profile-id line — not one line per mismatch category. -/
theorem c8_counterexample :
    passOutput wEnv wProfile xMeta8 = Except.ok (some
      ["Checking profile id 4902911",
       "ocean_depth mismatch", "Profile ID: 4902911",
       "ocean_depth mismatch", "Profile ID: 4902911",
       "ocean_depth mismatch", "Profile ID: 4902911",
       "ocean_depth mismatch", "Profile ID: 4902911"]) ∧
    (["ocean_depth mismatch", "Profile ID: 4902911",
      "ocean_depth mismatch", "Profile ID: 4902911",
      "ocean_depth mismatch", "Profile ID: 4902911",
      "ocean_depth mismatch", "Profile ID: 4902911"].count
        "ocean_depth mismatch") = 4 := by
  have hcheck : staticCheck wSeg wProfile xMeta8 0 0 0 =
      ["ocean_depth mismatch", "Profile ID: 4902911"] := rfl
  have hv := @validatePass_ok wEnv wProfile xMeta8 _ _ _ _ _ _ _
    wTheta_vec wSalt_vec wResolve wAllTheta wAllSalt
  have hpass : validatePass wEnv wProfile xMeta8 = Except.ok
      ["ocean_depth mismatch", "Profile ID: 4902911",
       "ocean_depth mismatch", "Profile ID: 4902911",
       "ocean_depth mismatch", "Profile ID: 4902911",
       "ocean_depth mismatch", "Profile ID: 4902911"] := by
    rw [hv]
    norm_num [staticFindings, wEnv, hcheck]
  refine ⟨?_, by decide⟩
  rw [passOutput_eq hpass]
  rfl

end Roundtrip
